import Mathlib

/-!
Shallow embedding of the market-structure snapshot engine of
`src/tools/market-data.ts` (tools `get_market_snapshot` and
`get_market_snapshots`).

Numbers are modelled by `ℚ` (the source works on JS numbers; no claim in
scope exercises float rounding, overflow, `NaN` or division by zero, and
every division the claims touch is guarded in the source by a positive
floor such as `Math.max(1e-8, …)`).  Timestamps are `ℤ` milliseconds.
JavaScript's `Math.max(...xs)` / `Math.min(...xs)` on a possibly empty
array (which yield `-Infinity` / `Infinity`) are modelled by `Option ℚ`
together with comparison helpers that treat `none` as the corresponding
infinity.  The external candle fetches are injected as explicit arguments
(the spec, §9, prescribes exactly this modelling for the lower-timeframe
fetch); a failed fetch is `none` / `Except.error`.

Fields named `open` in the source are called `o` here (`open` is a Lean
keyword); likewise `h`, `l`, `c`, `v` abbreviate `high`, `low`, `close`,
`volume`, and the hidden-order-block field `partialClose` of the source is
called `partClose`.  Telemetry logging, the in-memory TTL cache, response
`compact` trimming (`slice(-k)` of the pivot/FVG tails) and the UTC
session anchors (`dailyOpen`, `weeklyOpen`, `prevDayHigh`, `prevDayLow`)
and SFP flags of the result object are outside every claim in scope and
are not embedded.
-/

/-- Direction of a break of structure or trend: `'up' | 'down'`. -/
inductive Dir where
  | up
  | down
deriving DecidableEq, Repr

/-- Side of an FVG / order block: `'bull' | 'bear'`. -/
inductive Side where
  | bull
  | bear
deriving DecidableEq, Repr

/-- A candle as built from a kline: `{ timestamp, open, high, low, close, volume }`. -/
structure Candle where
  timestamp : ℤ
  o : ℚ
  h : ℚ
  l : ℚ
  c : ℚ
  v : ℚ
deriving DecidableEq, Repr

/-- A lower-timeframe candle as built in `computeLtfConfirmations`:
`{ ts, o, h, l, c }`. -/
structure LtfCandle where
  ts : ℤ
  o : ℚ
  h : ℚ
  l : ℚ
  c : ℚ
deriving DecidableEq, Repr

/-- `{ idx, type: 'H'|'L', price }`; `true` stands for `'H'`. -/
structure Pivot where
  idx : ℕ
  isHigh : Bool
  price : ℚ
deriving DecidableEq, Repr

/-- `{ type, from, to, startIdx }` of an FVG (`fromB`/`toB` are the
source's `from`/`to`; `from` is a Lean keyword). -/
structure Fvg where
  type : Side
  fromB : ℚ
  toB : ℚ
  startIdx : ℕ
deriving DecidableEq, Repr

/-- A liquidity cluster `{ level, count, indices }`. -/
structure Cluster where
  level : ℚ
  count : ℕ
  indices : List ℕ
deriving DecidableEq, Repr

/-- `liquidityZones = { highs, lows }`. -/
structure LiqZones where
  highs : List Cluster
  lows : List Cluster
deriving DecidableEq, Repr

/-- `{ type, idx, open, high, low, close }` of an order block. -/
structure OrderBlock where
  type : Side
  idx : ℕ
  o : ℚ
  h : ℚ
  l : ℚ
  c : ℚ
deriving DecidableEq, Repr

/-- A hidden order block as first pushed (before enrichment):
`{ type, idx, zone: {open, close, high, low}, revisitIdx, wickThrough,
partialClose, coreUntouched }`.  Zone fields are flattened as
`zo, zc, zh, zl`. -/
structure HobCandidate where
  type : Side
  idx : ℕ
  zo : ℚ
  zc : ℚ
  zh : ℚ
  zl : ℚ
  revisitIdx : ℕ
  wickThrough : Bool
  partClose : Bool
  coreUntouched : Bool
deriving DecidableEq, Repr

/-- The four LTF confirmation flags `{ bos, choch, sfp, fvgMitigation }`. -/
structure LtfFlags where
  bos : Bool
  choch : Bool
  sfp : Bool
  fvgMitigation : Bool
deriving DecidableEq, Repr

/-- `hob.components = { dispScore, wickRatio, fvgNear, liqScore, vwap, hvn,
tfWeight }` (the source's `wickRatio` is called `wick` here). -/
structure HobComponents where
  dispScore : ℚ
  wick : ℚ
  fvgNear : Bool
  liqScore : ℚ
  vwap : Bool
  hvn : Bool
  tfWeight : ℚ
deriving DecidableEq, Repr

/-- A hidden order block after the enrichment loop of
`get_market_snapshot` (lines 938–995 of the source). -/
structure EnrichedHob where
  type : Side
  idx : ℕ
  zo : ℚ
  zc : ℚ
  zh : ℚ
  zl : ℚ
  revisitIdx : ℕ
  wickThrough : Bool
  partClose : Bool
  coreUntouched : Bool
  invalidated : Bool
  fullyMitigated : Bool
  ltfConfirmations : LtfFlags
  qualityScore : ℚ
  components : HobComponents
  isVeryStrong : Bool
  strengthLabel : String
deriving DecidableEq, Repr

/-- A hidden order block of the batch handler `get_market_snapshots`:
the same candidate record, but the enrichment properties are never
assigned there — reading them in `filterHob` yields JS `undefined`,
modelled as `none` / `Option`-typed fields always set to `none` by the
batch constructor. -/
structure BatchHob where
  type : Side
  idx : ℕ
  zo : ℚ
  zc : ℚ
  zh : ℚ
  zl : ℚ
  revisitIdx : ℕ
  wickThrough : Bool
  partClose : Bool
  coreUntouched : Bool
  qualityScore : Option ℚ
  ltfConfirmations : Option LtfFlags
  invalidated : Option Bool
  fullyMitigated : Option Bool
deriving DecidableEq, Repr

/- ## List helpers (JS array primitives) -/

/-- `arr[i]` for an in-range numeric read; out-of-range reads (which the
source never performs on the paths in scope) default to `0`. -/
def getq (l : List ℚ) (i : ℕ) : ℚ := l.getD i 0

/-- `Math.max(...l)`: `none` models `-Infinity` (empty array). -/
def maxQ : List ℚ → Option ℚ
  | [] => none
  | x :: xs => some (xs.foldl max x)

/-- `Math.min(...l)`: `none` models `Infinity` (empty array). -/
def minQ : List ℚ → Option ℚ
  | [] => none
  | x :: xs => some (xs.foldl min x)

/-- `c > m` where `m` is a JS `Math.max(...)` result (`none = -Infinity`,
so the comparison is then `true`). -/
def gtMax (c : ℚ) (m : Option ℚ) : Bool :=
  match m with
  | none => true
  | some x => decide (x < c)

/-- `c < m` where `m` is a JS `Math.min(...)` result (`none = Infinity`). -/
def ltMin (c : ℚ) (m : Option ℚ) : Bool :=
  match m with
  | none => true
  | some x => decide (c < x)

/-- The descending index list `[hi, hi-1, …, lo]` of a JS
`for (let i = hi; i >= lo; i--)` loop (empty when `hi < lo`). -/
def descRange (hi lo : ℤ) : List ℤ :=
  (List.range (hi - lo + 1).toNat).map (fun k => hi - (k : ℤ))

/-- Read `arr[i]` at a (non-negative on every executed path) `ℤ` index. -/
def getz (l : List ℚ) (i : ℤ) : ℚ := l.getD i.toNat 0

/- ## Series utilities -/

/-- `sma(arr, n)`: mean of the last `n` entries, `null` when too short. -/
def sma (arr : List ℚ) (n : ℕ) : Option ℚ :=
  if arr.length < n then none
  else some ((arr.drop (arr.length - n)).sum / (n : ℚ))

/-- `rma(arr, n)` — Wilder's running moving average: seed = simple mean of
the first `n` entries, then `val = (1/n)·a + (1 - 1/n)·val` over the
rest; `null` when `arr.length < n`. -/
def rma (arr : List ℚ) (n : ℕ) : Option ℚ :=
  if arr.length < n then none
  else some ((arr.drop n).foldl
    (fun val a => (1 / (n : ℚ)) * a + (1 - 1 / (n : ℚ)) * val)
    ((arr.take n).sum / (n : ℚ)))

/-- The true-range series: `tr[0] = high-low`, and for `i > 0`
`tr[i] = max(high-low, |high-prevClose|, |low-prevClose|)`. -/
def trOf : List Candle → List ℚ
  | [] => []
  | c0 :: rest =>
      (c0.h - c0.l) ::
        List.zipWith
          (fun prev cur => max (cur.h - cur.l) (max |cur.h - prev.c| |cur.l - prev.c|))
          (c0 :: rest) rest

/-- `atr = rma(tr, atrPeriod)`. -/
def atrOf (candles : List Candle) (atrPeriod : ℕ) : Option ℚ :=
  rma (trOf candles) atrPeriod

/-- The close-to-close delta series `closes[i] - closes[i-1]`. -/
def deltasOf (closes : List ℚ) : List ℚ :=
  List.zipWith (fun a b => a - b) (closes.drop 1) closes

/-- `avgGain = rma(gains, 14)`. -/
def avgGainOf (closes : List ℚ) : Option ℚ :=
  rma ((deltasOf closes).map (fun d => if 0 < d then d else 0)) 14

/-- `avgLoss = rma(losses, 14)`. -/
def avgLossOf (closes : List ℚ) : Option ℚ :=
  rma ((deltasOf closes).map (fun d => if d < 0 then -d else 0)) 14

/-- RSI(14): `null` without 14 deltas; `100` when `avgLoss === 0` (the
source tests this branch first), `0` when `avgGain === 0`, else
`100 - 100/(1 + avgGain/avgLoss)`. -/
def rsiOf (closes : List ℚ) : Option ℚ :=
  match avgGainOf closes, avgLossOf closes with
  | some ag, some al =>
      if al = 0 then some 100
      else if ag = 0 then some 0
      else some (100 - 100 / (1 + ag / al))
  | _, _ => none

/-- `vwap`: volume-weighted typical price over the whole window;
`null` when the volume sum is not positive. -/
def vwapOf (candles : List Candle) : Option ℚ :=
  let tpVolSum := (candles.map (fun cd => (cd.h + cd.l + cd.c) / 3 * cd.v)).sum
  let volSum := (candles.map (fun cd => cd.v)).sum
  if 0 < volSum then some (tpVolSum / volSum) else none

/- ## Structure detector -/

/-- The pivot list: for interior `i`, an `'H'` pivot when `highs[i]` is a
strict local maximum, then an `'L'` pivot when `lows[i]` is a strict
local minimum (the source pushes `H` before `L` at the same index). -/
def pivotsOf (highs lows : List ℚ) : List Pivot :=
  (List.range' 1 (highs.length - 2)).flatMap (fun i =>
    (if getq highs (i-1) < getq highs i ∧ getq highs (i+1) < getq highs i
      then [⟨i, true, getq highs i⟩] else []) ++
    (if getq lows i < getq lows (i-1) ∧ getq lows i < getq lows (i+1)
      then [⟨i, false, getq lows i⟩] else []))

/-- `bos`: `'up'` when `lastClose > Math.max(...highs.slice(0,-1))`,
`'down'` when `lastClose < Math.min(...lows.slice(0,-1))`, else `null`.
On a 1-candle array the sliced arrays are empty, so the max is
`-Infinity` and the comparison is vacuously true. -/
def bosOf (closes highs lows : List ℚ) : Option Dir :=
  let lastClose := getq closes (closes.length - 1)
  if gtMax lastClose (maxQ highs.dropLast) then some .up
  else if ltMin lastClose (minQ lows.dropLast) then some .down
  else none

/-- `trend`: JS truthiness of `sma50 && sma200` — `null` when either SMA
is `null` *or zero*; else `'up'` iff `sma50 > sma200`. -/
def trendOf (s50 s200 : Option ℚ) : Option Dir :=
  match s50, s200 with
  | some a, some b =>
      if a = 0 ∨ b = 0 then none
      else if b < a then some .up else some .down
  | _, _ => none

/-- The FVG list over the last `fvgLookback + 2` candles: bullish at `i`
when `lows[i] > highs[i-2]`, bearish when `highs[i] < lows[i-2]`. -/
def fvgOf (highs lows : List ℚ) (fvgLookback : ℕ) : List Fvg :=
  let n := highs.length
  let start := max 2 (n - (fvgLookback + 2))
  (List.range' start (n - start)).flatMap (fun i =>
    (if getq highs (i-2) < getq lows i
      then [⟨.bull, getq highs (i-2), getq lows i, i-2⟩] else []) ++
    (if getq highs i < getq lows (i-2)
      then [⟨.bear, getq highs i, getq lows (i-2), i-2⟩] else []))

/-- `tolerance = atr ? atr*0.1 : lastClose*0.001` (JS truthiness: an
`atr` of `0` also falls back). -/
def toleranceOf (atr : Option ℚ) (closes : List ℚ) : ℚ :=
  match atr with
  | some a => if a = 0 then getq closes (closes.length - 1) * (1/1000) else a * (1/10)
  | none => getq closes (closes.length - 1) * (1/1000)

/-- One step of `clusterLevels`' fold; the accumulator keeps the cluster
list reversed so its head is the mutable `last` cluster of the source. -/
def clusterStep (tolerance : ℚ) (acc : List Cluster) (pt : ℕ × ℚ) : List Cluster :=
  match acc with
  | last :: rest =>
      if |pt.2 - last.level| ≤ tolerance then
        ⟨(last.level * (last.count : ℚ) + pt.2) / ((last.count : ℚ) + 1),
          last.count + 1, last.indices ++ [pt.1]⟩ :: rest
      else ⟨pt.2, 1, [pt.1]⟩ :: last :: rest
  | [] => [⟨pt.2, 1, [pt.1]⟩]

/-- `clusterLevels(points)`: sort by price, merge points within
`tolerance` of the running weighted mean, keep clusters with `count ≥ 2`. -/
def clusterLevels (tolerance : ℚ) (points : List (ℕ × ℚ)) : List Cluster :=
  let sorted := points.mergeSort (fun a b => a.2 ≤ b.2)
  ((sorted.foldl (clusterStep tolerance) []).reverse).filter (fun cl => 2 ≤ cl.count)

/-- `liquidityZones = { highs: cluster(pivot highs), lows: cluster(pivot lows) }`. -/
def liquidityZonesOf (tolerance : ℚ) (pivots : List Pivot) : LiqZones :=
  ⟨clusterLevels tolerance ((pivots.filter (·.isHigh)).map (fun p => (p.idx, p.price))),
   clusterLevels tolerance ((pivots.filter (!·.isHigh)).map (fun p => (p.idx, p.price)))⟩

/- ## Order Block engine -/

/-- `baseATR = atr ?? Math.max(1e-8, lastHigh - lastLow)` (`??` falls back
only on `null`, not on `0`). -/
def baseATROf (atr : Option ℚ) (highs lows : List ℚ) : ℚ :=
  match atr with
  | some a => a
  | none => max (1/100000000)
      (getq highs (highs.length - 1) - getq lows (lows.length - 1))

/-- Build the order-block record for index `i` from the parallel arrays. -/
def mkOB (type : Side) (opens highs lows closes : List ℚ) (i : ℕ) : OrderBlock :=
  ⟨type, i, getq opens i, getq highs i, getq lows i, getq closes i⟩

/-- Pass 1 — BOS-aligned search (`bos='up'` case shown; `'down'` is the
mirror): scan `i` from `n-3` down to `n-lookbackOB` for a bearish-bodied
candle followed by two non-decreasing closes, or with
`lastClose > prevHigh` (`brokeHigh`). -/
def obPass1 (bos : Option Dir) (opens highs lows closes : List ℚ) : Option OrderBlock :=
  let n := closes.length
  let lookbackOB : ℤ := min ((n : ℤ) - 1) 60
  let lastClose := getq closes (n - 1)
  match bos with
  | some .up =>
      ((descRange ((n : ℤ) - 3) ((n : ℤ) - lookbackOB)).find? (fun i =>
        decide (getz closes i < getz opens i) &&
        ((decide (getz closes i < getz closes (i+1)) &&
          decide (getz closes (i+1) ≤ getz closes (i+2))) ||
         gtMax lastClose (maxQ highs.dropLast)))).map
        (fun i => mkOB .bull opens highs lows closes i.toNat)
  | some .down =>
      ((descRange ((n : ℤ) - 3) ((n : ℤ) - lookbackOB)).find? (fun i =>
        decide (getz opens i < getz closes i) &&
        ((decide (getz closes (i+1) < getz closes i) &&
          decide (getz closes (i+2) ≤ getz closes (i+1))) ||
         ltMin lastClose (minQ lows.dropLast)))).map
        (fun i => mkOB .bear opens highs lows closes i.toNat)
  | none => none

/-- Pass 2 — displacement fallback: if the close-to-close move over
`windowN = min(5, n-1)` candles exceeds `0.8 × base`, take the nearest
opposite-bodied candle scanning back from `n-2`. -/
def obPass2 (atr : Option ℚ) (opens highs lows closes : List ℚ) : Option OrderBlock :=
  let n := closes.length
  let lookbackOB : ℤ := min ((n : ℤ) - 1) 60
  let windowN := min 5 (n - 1)
  let displacementUp := getq closes (n - 1) - getq closes (n - 1 - windowN)
  let displacementDown := getq closes (n - 1 - windowN) - getq closes (n - 1)
  let base := baseATROf atr highs lows
  let threshold := base * (4/5)
  if threshold < displacementUp then
    ((descRange ((n : ℤ) - 2) (max 1 ((n : ℤ) - 1 - lookbackOB))).find? (fun i =>
      decide (getz closes i < getz opens i))).map
      (fun i => mkOB .bull opens highs lows closes i.toNat)
  else if threshold < displacementDown then
    ((descRange ((n : ℤ) - 2) (max 1 ((n : ℤ) - 1 - lookbackOB))).find? (fun i =>
      decide (getz opens i < getz closes i))).map
      (fun i => mkOB .bear opens highs lows closes i.toNat)
  else none

/-- Pass 3 — pivot fallback: the bearish-bodied candle within 10 bars
before the most recent `'H'` pivot (bull OB), else the bullish-bodied
candle before the most recent `'L'` pivot (bear OB). -/
def obPass3 (pivots : List Pivot) (opens highs lows closes : List ℚ) : Option OrderBlock :=
  let lastH := pivots.reverse.find? (·.isHigh)
  let lastL := pivots.reverse.find? (!·.isHigh)
  let fromH : Option OrderBlock :=
    match lastH with
    | some p =>
        ((descRange ((p.idx : ℤ) - 1) (max 0 ((p.idx : ℤ) - 10))).find? (fun i =>
          decide (getz closes i < getz opens i))).map
          (fun i => mkOB .bull opens highs lows closes i.toNat)
    | none => none
  match fromH with
  | some ob => some ob
  | none =>
      match lastL with
      | some p =>
          ((descRange ((p.idx : ℤ) - 1) (max 0 ((p.idx : ℤ) - 10))).find? (fun i =>
            decide (getz opens i < getz closes i))).map
            (fun i => mkOB .bear opens highs lows closes i.toNat)
      | none => none

/-- The `orderBlocks` array: the three passes in priority order; the
source array holds at most one block (every pass `break`s after its
first push and later passes run only on an empty array). -/
def orderBlocksOf (bos : Option Dir) (atr : Option ℚ) (pivots : List Pivot)
    (opens highs lows closes : List ℚ) : List OrderBlock :=
  match obPass1 bos opens highs lows closes with
  | some ob => [ob]
  | none =>
      match obPass2 atr opens highs lows closes with
      | some ob => [ob]
      | none =>
          match obPass3 pivots opens highs lows closes with
          | some ob => [ob]
          | none => []

/- ## Hidden Order Block tracker -/

/-- `revisitIdx`: the first candle after the OB whose `[low, high]` range
overlaps the OB body. -/
def findRevisit (highs lows : List ℚ) (bodyLow bodyHigh : ℚ) (obIdx : ℕ) : Option ℕ :=
  (List.range' (obIdx + 1) (highs.length - (obIdx + 1))).find? (fun i =>
    decide (bodyLow ≤ getq highs i) && decide (getq lows i ≤ bodyHigh))

/-- The un-enriched hidden-order-block candidates: one per order block
with a revisit that is neither invalidated at the revisit candle nor
without wick-through / partial-close. -/
def hobCandidatesOf (highs lows closes : List ℚ)
    (obs : List OrderBlock) : List HobCandidate :=
  obs.flatMap (fun ob =>
    let bodyLow := min ob.o ob.c
    let bodyHigh := max ob.o ob.c
    match findRevisit highs lows bodyLow bodyHigh ob.idx with
    | none => []
    | some r =>
        match ob.type with
        | .bull =>
            let invalidated := decide (getq closes r < bodyLow)
            let wickThrough := decide (getq lows r < bodyLow) && decide (bodyLow ≤ getq closes r)
            let partClose := decide (bodyLow ≤ getq closes r) && decide (getq closes r ≤ bodyHigh)
            if !invalidated && (wickThrough || partClose) then
              [⟨.bull, ob.idx, ob.o, ob.c, ob.h, ob.l, r, wickThrough, partClose, true⟩]
            else []
        | .bear =>
            let invalidated := decide (bodyHigh < getq closes r)
            let wickThrough := decide (bodyHigh < getq highs r) && decide (getq closes r ≤ bodyHigh)
            let partClose := decide (bodyLow ≤ getq closes r) && decide (getq closes r ≤ bodyHigh)
            if !invalidated && (wickThrough || partClose) then
              [⟨.bear, ob.idx, ob.o, ob.c, ob.h, ob.l, r, wickThrough, partClose, true⟩]
            else [])

/-- The post-revisit scan over the candles after `revisitIdx` (the loop at
lines 943–951): a close beyond the adverse zone boundary sets
`invalidated` and `break`s; a candle body fully clearing the favorable
boundary sets the raw `fullyMitigated` accumulator and the scan goes on.
Returns `(invalidated, fullyMitigated-before-the-final-and)`. -/
def scanMit (type : Side) (zLow zHigh : ℚ) (fm : Bool) : List Candle → Bool × Bool
  | [] => (false, fm)
  | cd :: rest =>
      match type with
      | .bull =>
          if cd.c < zLow then (true, fm)
          else scanMit .bull zLow zHigh (fm || decide (zHigh < min cd.o cd.c)) rest
      | .bear =>
          if zHigh < cd.c then (true, fm)
          else scanMit .bear zLow zHigh (fm || decide (max cd.o cd.c < zLow)) rest

/- ## Quality scorer & classifier -/

/-- `b2q true = 1`, `b2q false = 0` (JS booleans used as `1 : 0`). -/
def b2q (b : Bool) : ℚ := if b then 1 else 0

/-- The composite quality score before rounding:
`(0.35·disp + 0.15·wick + 0.15·fvgNear + 0.15·liq + 0.1·vwap + 0.1·hvn) × tfWeight`. -/
def scoreFormula (disp wick fvgN liq vw hv tf : ℚ) : ℚ :=
  (35/100 * disp + 15/100 * wick + 15/100 * fvgN + 15/100 * liq
    + 1/10 * vw + 1/10 * hv) * tf

/-- The composite score recomputed from a stored `components` record. -/
def scoreOfComponents (cp : HobComponents) : ℚ :=
  scoreFormula cp.dispScore cp.wick (b2q cp.fvgNear) cp.liqScore
    (b2q cp.vwap) (b2q cp.hvn) cp.tfWeight

/-- `Number(q.toFixed(3))`: rounding to 3 decimal places (round to the
nearest multiple of `1/1000`). -/
def round3 (q : ℚ) : ℚ := ((round (q * 1000) : ℤ) : ℚ) / 1000

/-- `confCount`: how many of the four LTF flags are set. -/
def confCountOf (f : LtfFlags) : ℕ :=
  (if f.bos then 1 else 0) + (if f.choch then 1 else 0)
    + (if f.sfp then 1 else 0) + (if f.fvgMitigation then 1 else 0)

/-- `confConfluence`: how many of {vwap confluence, HVN confluence,
`liqScore ≥ 0.5`, FVG nearby} hold. -/
def confluenceCountOf (cp : HobComponents) : ℕ :=
  (if cp.vwap then 1 else 0) + (if cp.hvn then 1 else 0)
    + (if (1/2 : ℚ) ≤ cp.liqScore then 1 else 0) + (if cp.fvgNear then 1 else 0)

/-- The displacement component (lines 955–957): the absolute close-to-close
move over `windowN = min(5, n-1-obIdx)` candles past the OB, divided by
`baseATR`, then *halved* and capped at 1:
`dispScore = min(1, (|closes[idx+windowN] - closes[idx]| / baseATR) / 2)`. -/
def dispScoreOf (closes : List ℚ) (obIdx : ℕ) (baseATR : ℚ) : ℚ :=
  let windowN := min 5 (closes.length - 1 - obIdx)
  let disp := if 0 < windowN
    then |getq closes (obIdx + windowN) - getq closes obIdx| / baseATR else 0
  min 1 (disp / 2)

/-- `nearFvg`: an FVG of the matching direction starting within
`[obIdx-2, obIdx+4]`. -/
def nearFvg (fvgs : List Fvg) (type : Side) (obIdx : ℕ) : Bool :=
  fvgs.any (fun g => decide (g.type = type)
    && decide ((obIdx : ℤ) - 2 ≤ (g.startIdx : ℤ))
    && decide ((g.startIdx : ℤ) ≤ (obIdx : ℤ) + 4))

/-- `nearestLiquidityScore`: `max(0, 1 - min(1, bestDistance/baseATR))`
against the opposite-side liquidity levels; `0` when there are none. -/
def nearestLiquidityScore (lz : LiqZones) (type : Side) (zoneMid baseATR : ℚ) : ℚ :=
  let levels := match type with | .bull => lz.lows | .bear => lz.highs
  match minQ (levels.map (fun cl => |zoneMid - cl.level|)) with
  | none => 0
  | some best => max 0 (1 - min 1 (best / baseATR))

/-- `vwapConfluence`: `false` on a `null` VWAP, else
`|zoneMid - vwap| / baseATR ≤ 0.5`. -/
def vwapConfluenceB (vwap : Option ℚ) (zoneMid baseATR : ℚ) : Bool :=
  match vwap with
  | none => false
  | some vw => decide (|zoneMid - vw| / baseATR ≤ 1/2)

/-- `vol75`: the 75th-percentile volume `volSorted[floor(len*0.75)] || 0`. -/
def vol75Of (volumes : List ℚ) : ℚ :=
  (volumes.mergeSort (fun a b => a ≤ b)).getD (3 * volumes.length / 4) 0

/-- The tiered label: `very-strong` on `isVeryStrong`, else `strong` when
the stored (3-decimal) score reaches `minQuality`, else `normal`. -/
def strengthLabelOf (isVeryStrong : Bool) (storedQs minQuality : ℚ) : String :=
  if isVeryStrong then "very-strong"
  else if minQuality ≤ storedQs then "strong" else "normal"

/-- The enrichment of one hidden-order-block candidate (lines 938–995):
post-revisit invalidation/mitigation scan, component sub-scores, the
weighted composite score, the very-strong decision and the label.  The
LTF flags arrive precomputed (`computeLtfConfirmations` below). -/
def enrichHob (minQuality veryStrongMinQuality tfWeight : ℚ)
    (fvgs : List Fvg) (lz : LiqZones) (vwap : Option ℚ) (vol75 baseATR : ℚ)
    (ltf : LtfFlags) (candles : List Candle) (hob : HobCandidate) : EnrichedHob :=
  let highs := candles.map (·.h)
  let lows := candles.map (·.l)
  let closes := candles.map (·.c)
  let volumes := candles.map (·.v)
  let zoneMid := (hob.zo + hob.zc) / 2
  let zLow := min hob.zo hob.zc
  let zHigh := max hob.zo hob.zc
  let sc := scanMit hob.type zLow zHigh false (candles.drop (hob.revisitIdx + 1))
  let invalidated := sc.1
  let dispScore := dispScoreOf closes hob.idx baseATR
  let rv := hob.revisitIdx
  let wick := match hob.type with
    | .bull => max 0 (min 1 ((min hob.zo hob.zc - getq lows rv)
        / max (1/100000000) (getq highs rv - getq lows rv)))
    | .bear => max 0 (min 1 ((getq highs rv - max hob.zo hob.zc)
        / max (1/100000000) (getq highs rv - getq lows rv)))
  let fvgNear := nearFvg fvgs hob.type hob.idx
  let liqScore := nearestLiquidityScore lz hob.type zoneMid baseATR
  let vwapConf := vwapConfluenceB vwap zoneMid baseATR
  let hvnConf := decide (vol75 ≤ getq volumes hob.idx)
  let comps : HobComponents := ⟨dispScore, wick, fvgNear, liqScore, vwapConf, hvnConf, tfWeight⟩
  let qualityScore := scoreOfComponents comps
  let isVeryStrong := !invalidated
    && decide (veryStrongMinQuality ≤ qualityScore)
    && decide ((13/10 : ℚ) ≤ tfWeight)
    && decide (2 ≤ confCountOf ltf)
    && decide (2 ≤ confluenceCountOf comps)
  { type := hob.type, idx := hob.idx,
    zo := hob.zo, zc := hob.zc, zh := hob.zh, zl := hob.zl,
    revisitIdx := hob.revisitIdx, wickThrough := hob.wickThrough,
    partClose := hob.partClose, coreUntouched := hob.coreUntouched,
    invalidated := invalidated,
    fullyMitigated := sc.2 && !invalidated,
    ltfConfirmations := ltf,
    qualityScore := round3 qualityScore,
    components := comps,
    isVeryStrong := isVeryStrong,
    strengthLabel := strengthLabelOf isVeryStrong (round3 qualityScore) minQuality }

/- ## Multi-timeframe confirmation -/

/-- The intervalMs table; lookups fall back to `3_600_000` via `??`. -/
def intervalMsMap (iv : String) : Option ℤ :=
  if iv = "1m" then some 60000 else if iv = "3m" then some 180000
  else if iv = "5m" then some 300000 else if iv = "15m" then some 900000
  else if iv = "30m" then some 1800000 else if iv = "1h" then some 3600000
  else if iv = "2h" then some 7200000 else if iv = "4h" then some 14400000
  else if iv = "6h" then some 21600000 else if iv = "8h" then some 28800000
  else if iv = "12h" then some 43200000 else if iv = "1d" then some 86400000
  else if iv = "2d" then some 172800000 else if iv = "4d" then some 345600000
  else if iv = "1w" then some 604800000 else if iv = "2w" then some 1209600000
  else none

/-- The lower-timeframe mapping table (`?? null` on a miss). -/
def ltfMap (iv : String) : Option String :=
  if iv = "2w" then some "1d" else if iv = "1w" then some "4h"
  else if iv = "4d" then some "1h" else if iv = "2d" then some "30m"
  else if iv = "1d" then some "1h" else if iv = "12h" then some "1h"
  else if iv = "8h" then some "30m" else if iv = "6h" then some "30m"
  else if iv = "4h" then some "30m" else if iv = "2h" then some "15m"
  else if iv = "1h" then some "15m" else if iv = "30m" then some "5m"
  else if iv = "15m" then some "5m" else if iv = "5m" then some "1m"
  else none

/-- The timeframe-weight table; lookups fall back to `1.0`. -/
def tfWeightMap (iv : String) : Option ℚ :=
  if iv = "1m" then some (1/2) else if iv = "5m" then some (7/10)
  else if iv = "15m" then some (4/5) else if iv = "30m" then some (9/10)
  else if iv = "1h" then some 1 else if iv = "4h" then some (11/10)
  else if iv = "1d" then some (6/5) else if iv = "2d" then some (5/4)
  else if iv = "4d" then some (13/10) else if iv = "1w" then some (27/20)
  else if iv = "2w" then some (7/5)
  else none

/-- The all-false LTF confirmation result. -/
def allFalseFlags : LtfFlags := ⟨false, false, false, false⟩

/-- The window subset `[revisitTs, revisitTs + 3×intervalMs]` of the
fetched lower-timeframe candles. -/
def ltfSubset (intervalMs revisitTs : ℤ) (cs : List LtfCandle) : List LtfCandle :=
  cs.filter (fun cd => decide (revisitTs ≤ cd.ts) && decide (cd.ts ≤ revisitTs + 3 * intervalMs))

/-- `computeLtfConfirmations(revisitTs, type)`.  The lower-timeframe fetch
is injected: `fetched = none` models the fetch throwing (the source's
`catch` then returns all-false flags); `ltfInterval = none` models a
missing lower-timeframe mapping.  Fewer than 5 candles in the revisit
window also yield all-false flags; otherwise the four heuristics run on
the subset. -/
def computeLtfConfirmations (ltfInterval : Option String)
    (fetched : Option (List LtfCandle)) (revisitTs intervalMs : ℤ)
    (baseATR : ℚ) (type : Side) : LtfFlags :=
  match ltfInterval with
  | none => allFalseFlags
  | some _ =>
      match fetched with
      | none => allFalseFlags
      | some ltfCandles =>
          let subset := ltfSubset intervalMs revisitTs ltfCandles
          if subset.length < 5 then allFalseFlags
          else
            let highsL := subset.map (·.h)
            let lowsL := subset.map (·.l)
            let closesL := subset.map (·.c)
            let third := max 1 (subset.length / 3)
            let preRangeHigh := (maxQ (highsL.take third)).getD 0
            let preRangeLow := (minQ (lowsL.take third)).getD 0
            let bosF := match type with
              | .bull => decide (preRangeHigh < (maxQ closesL).getD 0)
              | .bear => decide ((minQ closesL).getD 0 < preRangeLow)
            let initialOpposite := match type with
              | .bull => decide (getq closesL 1 - getq closesL 0 < 0)
              | .bear => decide (0 < getq closesL 1 - getq closesL 0)
            let choch := initialOpposite && bosF
            let tol := baseATR * (1/10)
            let sfpF := (List.range' 2 (subset.length - 2)).any (fun i =>
              match type with
              | .bear => decide (preRangeHigh + tol < getq highsL i)
                  && decide (getq closesL i < preRangeHigh)
              | .bull => decide (getq lowsL i < preRangeLow - tol)
                  && decide (preRangeLow < getq closesL i))
            let fvgMit := (List.range' 2 (subset.length - 2)).any (fun i =>
              (decide (getq highsL (i-2) < getq lowsL i)
                || decide (getq highsL i < getq lowsL (i-2)))
              && (decide (i + 1 < subset.length)
                && (decide (getq lowsL (i+1) ≤ getq highsL (i-2))
                  || decide (getq lowsL (i-2) ≤ getq highsL (i+1)))))
            ⟨bosF, choch, sfpF, fvgMit⟩

/- ## Snapshot assembly (single-symbol tool `get_market_snapshot`) -/

/-- The caller-facing configuration of `get_market_snapshot` (schema
defaults in parentheses): `atrPeriod` (14), `fvgLookback` (60),
`minQuality` (0.6), `veryStrongMinQuality` (0.75) and the four filter
toggles; `interval` selects the timeframe weight, the LTF mapping and
the interval duration. -/
structure SnapshotParams where
  interval : String
  atrPeriod : ℕ
  fvgLookback : ℕ
  minQuality : ℚ
  veryStrongMinQuality : ℚ
  requireLTFConfirmations : Bool
  excludeInvalidated : Bool
  onlyFullyMitigated : Bool
  onlyVeryStrong : Bool
deriving DecidableEq, Repr

/-- The schema defaults (interval `'1h'`). -/
def defaultParams : SnapshotParams :=
  ⟨"1h", 14, 60, 6/10, 3/4, false, true, false, false⟩

/-- The same configuration with the `onlyVeryStrong` filter enabled. -/
def withOnlyVeryStrong (p : SnapshotParams) : SnapshotParams :=
  { p with onlyVeryStrong := true }

/-- The same configuration with every filter toggle off, keeping only the
`minQuality` threshold active. -/
def thresholdOnly (p : SnapshotParams) : SnapshotParams :=
  ⟨p.interval, p.atrPeriod, p.fvgLookback, p.minQuality, p.veryStrongMinQuality,
    false, false, false, false⟩

/-- `filterHob` of `get_market_snapshot` (lines 998–1006): the AND of the
LTF requirement, the `minQuality` threshold (`typeof qualityScore ===
'number'` always holds for an enriched block), invalidation exclusion,
mitigation-only and very-strong-only. -/
def filterHob (p : SnapshotParams) (hob : EnrichedHob) : Bool :=
  let ltfOk := !p.requireLTFConfirmations
    || (hob.ltfConfirmations.bos || hob.ltfConfirmations.choch
      || hob.ltfConfirmations.sfp || hob.ltfConfirmations.fvgMitigation)
  let qualityOk := decide (p.minQuality ≤ hob.qualityScore)
  let invalidationOk := !p.excludeInvalidated || !hob.invalidated
  let mitigationOk := !p.onlyFullyMitigated || hob.fullyMitigated
  let veryStrongOk := !p.onlyVeryStrong || hob.isVeryStrong
  ltfOk && qualityOk && invalidationOk && mitigationOk && veryStrongOk

/-- The snapshot object (only the fields some claim in scope touches; the
session anchors, SFP flags, EMA map and `compact` tail-trimming are not
modelled — see the header comment). -/
structure Snapshot where
  bos : Option Dir
  trend : Option Dir
  sma50 : Option ℚ
  sma200 : Option ℚ
  atr : Option ℚ
  rsi : Option ℚ
  vwap : Option ℚ
  pivots : List Pivot
  fvg : List Fvg
  liquidityZones : LiqZones
  orderBlocks : List OrderBlock
  hiddenOrderBlocks : List EnrichedHob
deriving DecidableEq, Repr

/-- The body of `get_market_snapshot` on a non-empty candle array.
`ltfFetched` injects the (single, deterministic) lower-timeframe fetch
used by every per-HOB confirmation call; `none` models a failing fetch. -/
def snapshotCore (p : SnapshotParams) (ltfFetched : Option (List LtfCandle))
    (candles : List Candle) : Snapshot :=
  let closes := candles.map (·.c)
  let highs := candles.map (·.h)
  let lows := candles.map (·.l)
  let opens := candles.map (·.o)
  let volumes := candles.map (·.v)
  let timestamps := candles.map (·.timestamp)
  let pivots := pivotsOf highs lows
  let bos := bosOf closes highs lows
  let fvgs := fvgOf highs lows p.fvgLookback
  let sma50 := sma closes 50
  let sma200 := sma closes 200
  let trend := trendOf sma50 sma200
  let atr := atrOf candles p.atrPeriod
  let rsi := rsiOf closes
  let tolerance := toleranceOf atr closes
  let lz := liquidityZonesOf tolerance pivots
  let obs := orderBlocksOf bos atr pivots opens highs lows closes
  let hobs := hobCandidatesOf highs lows closes obs
  let vwap := vwapOf candles
  let intervalMs := (intervalMsMap p.interval).getD 3600000
  let ltfInterval := ltfMap p.interval
  let tfWeight := (tfWeightMap p.interval).getD 1
  let vol75 := vol75Of volumes
  let baseATR := baseATROf atr highs lows
  let enriched := hobs.map (fun hob =>
    enrichHob p.minQuality p.veryStrongMinQuality tfWeight fvgs lz vwap vol75 baseATR
      (computeLtfConfirmations ltfInterval ltfFetched
        (timestamps.getD hob.revisitIdx 0) intervalMs baseATR hob.type)
      candles hob)
  { bos := bos, trend := trend, sma50 := sma50, sma200 := sma200,
    atr := atr, rsi := rsi, vwap := vwap, pivots := pivots, fvg := fvgs,
    liquidityZones := lz, orderBlocks := obs,
    hiddenOrderBlocks := enriched.filter (filterHob p) }

/-- `get_market_snapshot`: `{symbol, error: 'no_candles'}` on an empty
kline array, else the computed snapshot. -/
def get_market_snapshot (p : SnapshotParams) (ltfFetched : Option (List LtfCandle))
    (candles : List Candle) : Except String Snapshot :=
  if candles.isEmpty then .error "no_candles"
  else .ok (snapshotCore p ltfFetched candles)

/- ## Batch tool `get_market_snapshots` -/

/-- The hidden-order-block candidates of the batch handler (lines
1121–1146): the same construction as `hobCandidatesOf`, but the pushed
records are never enriched — `qualityScore`, `ltfConfirmations`,
`invalidated` and `fullyMitigated` stay absent (`none`). -/
def batchHobCandidatesOf (highs lows closes : List ℚ)
    (obs : List OrderBlock) : List BatchHob :=
  obs.flatMap (fun ob =>
    let bodyLow := min ob.o ob.c
    let bodyHigh := max ob.o ob.c
    match findRevisit highs lows bodyLow bodyHigh ob.idx with
    | none => []
    | some r =>
        match ob.type with
        | .bull =>
            let invalidated := decide (getq closes r < bodyLow)
            let wickThrough := decide (getq lows r < bodyLow) && decide (bodyLow ≤ getq closes r)
            let partClose := decide (bodyLow ≤ getq closes r) && decide (getq closes r ≤ bodyHigh)
            if !invalidated && (wickThrough || partClose) then
              [⟨.bull, ob.idx, ob.o, ob.c, ob.h, ob.l, r, wickThrough, partClose, true,
                none, none, none, none⟩]
            else []
        | .bear =>
            let invalidated := decide (bodyHigh < getq closes r)
            let wickThrough := decide (bodyHigh < getq highs r) && decide (getq closes r ≤ bodyHigh)
            let partClose := decide (bodyLow ≤ getq closes r) && decide (getq closes r ≤ bodyHigh)
            if !invalidated && (wickThrough || partClose) then
              [⟨.bear, ob.idx, ob.o, ob.c, ob.h, ob.l, r, wickThrough, partClose, true,
                none, none, none, none⟩]
            else [])

/-- `filterHob` of the batch handler (lines 1147–1154), reading the
never-assigned enrichment properties of a batch block: each read of an
absent property is `none` (JS `undefined`), so `typeof qualityScore ===
'number'` is false. -/
def batchFilterHob (p : SnapshotParams) (hob : BatchHob) : Bool :=
  let ltfOk := !p.requireLTFConfirmations
    || (match hob.ltfConfirmations with
        | some f => f.bos || f.choch || f.sfp || f.fvgMitigation
        | none => false)
  let qualityOk := match hob.qualityScore with
    | some q => decide (p.minQuality ≤ q)
    | none => false
  let invalidationOk := !p.excludeInvalidated
    || (match hob.invalidated with | some b => !b | none => true)
  let mitigationOk := !p.onlyFullyMitigated
    || (match hob.fullyMitigated with | some b => b | none => false)
  ltfOk && qualityOk && invalidationOk && mitigationOk

/-- The per-symbol result object of the batch handler (the fields the
claims in scope touch). -/
structure BatchSnapshot where
  bos : Option Dir
  trend : Option Dir
  sma50 : Option ℚ
  sma200 : Option ℚ
  atr : Option ℚ
  rsi : Option ℚ
  vwap : Option ℚ
  pivots : List Pivot
  fvg : List Fvg
  liquidityZones : LiqZones
  orderBlocks : List OrderBlock
  hiddenOrderBlocks : List BatchHob
deriving DecidableEq, Repr

/-- The per-symbol computation of `get_market_snapshots` on a non-empty
candle array (no LTF fetches and no enrichment happen there). -/
def batchSnapshotCore (p : SnapshotParams) (candles : List Candle) : BatchSnapshot :=
  let closes := candles.map (·.c)
  let highs := candles.map (·.h)
  let lows := candles.map (·.l)
  let opens := candles.map (·.o)
  let pivots := pivotsOf highs lows
  let bos := bosOf closes highs lows
  let fvgs := fvgOf highs lows p.fvgLookback
  let sma50 := sma closes 50
  let sma200 := sma closes 200
  let trend := trendOf sma50 sma200
  let atr := atrOf candles p.atrPeriod
  let rsi := rsiOf closes
  let tolerance := toleranceOf atr closes
  let lz := liquidityZonesOf tolerance pivots
  let obs := orderBlocksOf bos atr pivots opens highs lows closes
  let hobs := batchHobCandidatesOf highs lows closes obs
  { bos := bos, trend := trend, sma50 := sma50, sma200 := sma200,
    atr := atr, rsi := rsi, vwap := vwapOf candles, pivots := pivots,
    fvg := fvgs, liquidityZones := lz, orderBlocks := obs,
    hiddenOrderBlocks := hobs.filter (batchFilterHob p) }

/-- One slot of the batch result array: a snapshot, or an error stub
`{symbol, error}`. -/
inductive BatchResult where
  | snap (symbol : String) (s : BatchSnapshot)
  | err (symbol : String) (msg : String)
deriving DecidableEq, Repr

/-- Whether a batch slot is an error stub. -/
def BatchResult.isError : BatchResult → Bool
  | .snap _ _ => false
  | .err _ _ => true

/-- The per-symbol step of `get_market_snapshots`: a throwing fetch is
caught into `{symbol, error: sanitized}`; an empty candle array becomes
`{symbol, error: 'no_candles'}`; otherwise the snapshot is computed. -/
def processSymbol (fetch : String → Except String (List Candle))
    (p : SnapshotParams) (symbol : String) : BatchResult :=
  match fetch symbol with
  | .error e => .err symbol e
  | .ok candles =>
      if candles.isEmpty then .err symbol "no_candles"
      else .snap symbol (batchSnapshotCore p candles)

/-- `get_market_snapshots`: iterate the symbols in order, each isolated
by its own try/catch, collecting one result slot per symbol. -/
def get_market_snapshots (fetch : String → Except String (List Candle))
    (p : SnapshotParams) (symbols : List String) : List BatchResult :=
  symbols.map (processSymbol fetch p)

/- ## Helper lemmas -/

/-- 3-decimal rounding is monotone. -/
theorem round3_mono {a b : ℚ} (hab : a ≤ b) : round3 a ≤ round3 b := by
  unfold round3
  have hr : round (a * 1000) ≤ round (b * 1000) := by
    rw [round_eq, round_eq]
    exact Int.floor_le_floor (by linarith)
  have hr' : ((round (a * 1000) : ℤ) : ℚ) ≤ ((round (b * 1000) : ℤ) : ℚ) :=
    Int.cast_le.mpr hr
  linarith

/-- The label is `very-strong` exactly on `isVeryStrong`. -/
theorem strengthLabelOf_very_iff (b : Bool) (s mq : ℚ) :
    strengthLabelOf b s mq = "very-strong" ↔ b = true := by
  cases b
  · unfold strengthLabelOf
    constructor
    · intro hcontra
      by_cases hq : mq ≤ s
      · rw [if_neg (by simp), if_pos hq] at hcontra; exact absurd hcontra (by decide)
      · rw [if_neg (by simp), if_neg hq] at hcontra; exact absurd hcontra (by decide)
    · intro hcontra; exact absurd hcontra (by decide)
  · simp [strengthLabelOf]

/-- When the label is not `very-strong`, it is `strong` iff the stored
score reaches `minQuality`. -/
theorem strengthLabelOf_strong_iff (b : Bool) (s mq : ℚ)
    (hnv : strengthLabelOf b s mq ≠ "very-strong") :
    (strengthLabelOf b s mq = "strong" ↔ mq ≤ s) := by
  cases b
  · unfold strengthLabelOf at *
    by_cases hq : mq ≤ s
    · rw [if_neg (by simp), if_pos hq]; simpa using hq
    · rw [if_neg (by simp), if_neg hq]
      constructor
      · intro hcontra; exact absurd hcontra (by decide)
      · intro hcontra; exact absurd hcontra hq
  · exact absurd (by simp [strengthLabelOf]) hnv

/-- When the label is not `very-strong`, it is `normal` iff the stored
score misses `minQuality`. -/
theorem strengthLabelOf_normal_iff (b : Bool) (s mq : ℚ)
    (hnv : strengthLabelOf b s mq ≠ "very-strong") :
    (strengthLabelOf b s mq = "normal" ↔ ¬ mq ≤ s) := by
  cases b
  · unfold strengthLabelOf at *
    by_cases hq : mq ≤ s
    · rw [if_neg (by simp), if_pos hq]
      constructor
      · intro hcontra; exact absurd hcontra (by decide)
      · intro hcontra; exact absurd hq hcontra
    · rw [if_neg (by simp), if_neg hq]; simpa using hq
  · exact absurd (by simp [strengthLabelOf]) hnv

/- ## C7 -/

/-- C7: the composite quality score
`(0.35·displacement + 0.15·wickRatio + 0.15·fvgProximity +
0.15·liquidityProximity + 0.10·vwapConfluence + 0.10·volumeNodeConfluence)
× timeframeWeight`, with all components non-negative, is monotonically
non-decreasing in displacement, in wickRatio and in timeframeWeight when
every other component is held fixed — both before and after the 3-decimal
rounding `round3` applied to the stored `qualityScore`. -/
theorem C7_qualityScore_monotone
    (d d' w w' f liq vw hv tf tf' : ℚ)
    (hd0 : 0 ≤ d) (hw0 : 0 ≤ w) (hf0 : 0 ≤ f) (hl0 : 0 ≤ liq)
    (hv0 : 0 ≤ vw) (hh0 : 0 ≤ hv) (ht0 : 0 ≤ tf)
    (hdd : d ≤ d') (hww : w ≤ w') (htt : tf ≤ tf') :
    (scoreFormula d w f liq vw hv tf ≤ scoreFormula d' w f liq vw hv tf
      ∧ round3 (scoreFormula d w f liq vw hv tf) ≤ round3 (scoreFormula d' w f liq vw hv tf))
    ∧ (scoreFormula d w f liq vw hv tf ≤ scoreFormula d w' f liq vw hv tf
      ∧ round3 (scoreFormula d w f liq vw hv tf) ≤ round3 (scoreFormula d w' f liq vw hv tf))
    ∧ (scoreFormula d w f liq vw hv tf ≤ scoreFormula d w f liq vw hv tf'
      ∧ round3 (scoreFormula d w f liq vw hv tf) ≤ round3 (scoreFormula d w f liq vw hv tf')) := by
  have hsum : 0 ≤ 35/100 * d + 15/100 * w + 15/100 * f + 15/100 * liq
      + 1/10 * vw + 1/10 * hv := by positivity
  have h1 : scoreFormula d w f liq vw hv tf ≤ scoreFormula d' w f liq vw hv tf := by
    unfold scoreFormula
    apply mul_le_mul_of_nonneg_right _ ht0
    linarith
  have h2 : scoreFormula d w f liq vw hv tf ≤ scoreFormula d w' f liq vw hv tf := by
    unfold scoreFormula
    apply mul_le_mul_of_nonneg_right _ ht0
    linarith
  have h3 : scoreFormula d w f liq vw hv tf ≤ scoreFormula d w f liq vw hv tf' := by
    unfold scoreFormula
    exact mul_le_mul_of_nonneg_left htt hsum
  exact ⟨⟨h1, round3_mono h1⟩, ⟨h2, round3_mono h2⟩, ⟨h3, round3_mono h3⟩⟩

/-- Witness for C7 at `d: 0 ≤ 1`, `w: 0 ≤ 1`, `tf: 1 ≤ 2`, other
components `0`. -/
theorem C7_witness :
    (scoreFormula 0 0 0 0 0 0 1 ≤ scoreFormula 1 0 0 0 0 0 1
      ∧ round3 (scoreFormula 0 0 0 0 0 0 1) ≤ round3 (scoreFormula 1 0 0 0 0 0 1))
    ∧ (scoreFormula 0 0 0 0 0 0 1 ≤ scoreFormula 0 1 0 0 0 0 1
      ∧ round3 (scoreFormula 0 0 0 0 0 0 1) ≤ round3 (scoreFormula 0 1 0 0 0 0 1))
    ∧ (scoreFormula 0 0 0 0 0 0 1 ≤ scoreFormula 0 0 0 0 0 0 2
      ∧ round3 (scoreFormula 0 0 0 0 0 0 1) ≤ round3 (scoreFormula 0 0 0 0 0 0 2)) :=
  C7_qualityScore_monotone 0 1 0 1 0 0 0 0 1 2
    (by norm_num) (by norm_num) (by norm_num) (by norm_num) (by norm_num)
    (by norm_num) (by norm_num) (by norm_num) (by norm_num) (by norm_num)

/- ## C5 -/

/-- C5 counterexample: with `closes = [0,1,1,1,1,1]`, OB origin `0` and
`baseATR = 1`, the close-to-close move over the `min(5, n-1)`-candle
window is `1 = 1·ATR`, so the claimed component
`min(1, move/ATR)` would be `1`; the code's `dispScoreOf` yields `1/2`
because it halves the ATR-normalized move before capping. -/
theorem C5_counterexample :
    dispScoreOf [0, 1, 1, 1, 1, 1] 0 1 = 1/2
    ∧ min 1 (|getq [0, 1, 1, 1, 1, 1] (0 + min 5 ([0, 1, 1, 1, 1, 1].length - 1 - 0))
        - getq [0, 1, 1, 1, 1, 1] 0| / 1) = 1
    ∧ (1/2 : ℚ) ≠ 1 := by
  refine ⟨?_, ?_, by norm_num⟩ <;> norm_num [dispScoreOf, getq]

/-- C5 amended: the displacement component equals the absolute
close-to-close move over a window of at most 5 candles after the OB
origin, normalized by *twice* the ATR (the raw `move/ATR` quotient is
halved), capped at 1. -/
theorem C5_dispScore_amended (closes : List ℚ) (obIdx : ℕ) (baseATR : ℚ)
    (hwin : 0 < min 5 (closes.length - 1 - obIdx)) :
    dispScoreOf closes obIdx baseATR
      = min 1 (|getq closes (obIdx + min 5 (closes.length - 1 - obIdx))
          - getq closes obIdx| / (2 * baseATR)) := by
  simp only [dispScoreOf]
  rw [if_pos hwin, div_div, mul_comm]

/-- Witness for C5 amended at `closes = [0,1,1,1,1,1]`, `obIdx = 0`,
`baseATR = 1`. -/
theorem C5_witness :
    0 < min 5 (([0, 1, 1, 1, 1, 1] : List ℚ).length - 1 - 0)
    ∧ dispScoreOf [0, 1, 1, 1, 1, 1] 0 1
      = min 1 (|getq [0, 1, 1, 1, 1, 1] (0 + min 5 (([0, 1, 1, 1, 1, 1] : List ℚ).length - 1 - 0))
          - getq [0, 1, 1, 1, 1, 1] 0| / (2 * 1)) :=
  ⟨by norm_num, C5_dispScore_amended [0, 1, 1, 1, 1, 1] 0 1 (by norm_num)⟩

/- ## C4 -/

/-- C4: an enriched hidden order block is never both `invalidated` and
`fullyMitigated`: the post-revisit scan's raw mitigation flag is stored
conjoined with the negation of the final invalidation flag
(`hob.fullyMitigated = fullyMitigated && !invalidated`), so
`fullyMitigated = true` implies `invalidated = false`. -/
theorem C4_not_invalidated_and_fullyMitigated
    (mq vs tfw : ℚ) (fvgs : List Fvg) (lz : LiqZones) (vwap : Option ℚ)
    (vol75 baseATR : ℚ) (ltf : LtfFlags) (candles : List Candle) (hob : HobCandidate) :
    ¬((enrichHob mq vs tfw fvgs lz vwap vol75 baseATR ltf candles hob).invalidated = true
      ∧ (enrichHob mq vs tfw fvgs lz vwap vol75 baseATR ltf candles hob).fullyMitigated = true) := by
  dsimp only [enrichHob]
  rintro ⟨h1, h2⟩
  rw [h1] at h2
  simp at h2

/-- Witness for C4 at a concrete two-candle input whose scan does set the
raw mitigation flag. -/
theorem C4_witness :
    ¬((enrichHob (6/10) (3/4) 1 [] ⟨[], []⟩ none 0 1 allFalseFlags
        [⟨0, 2, 2, 1, 1, 1⟩, ⟨1, 3, 4, 3, 4, 1⟩]
        ⟨.bull, 0, 2, 1, 2, 1, 1, false, true, true⟩).invalidated = true
      ∧ (enrichHob (6/10) (3/4) 1 [] ⟨[], []⟩ none 0 1 allFalseFlags
        [⟨0, 2, 2, 1, 1, 1⟩, ⟨1, 3, 4, 3, 4, 1⟩]
        ⟨.bull, 0, 2, 1, 2, 1, 1, false, true, true⟩).fullyMitigated = true) :=
  C4_not_invalidated_and_fullyMitigated (6/10) (3/4) 1 [] ⟨[], []⟩ none 0 1 allFalseFlags
    [⟨0, 2, 2, 1, 1, 1⟩, ⟨1, 3, 4, 3, 4, 1⟩]
    ⟨.bull, 0, 2, 1, 2, 1, 1, false, true, true⟩

/- ## C9 -/

/-- C9: the lower-timeframe confirmation computation returns all four
flags false whenever the LTF fetch fails (`fetched = none` models the
thrown-and-caught fetch), whenever no lower-timeframe mapping exists for
the interval (`ltfInterval = none`), or whenever fewer than 5
lower-timeframe candles fall within
`[revisitTs, revisitTs + 3·intervalMs]`; being a total function it never
throws and the snapshot computation continues. -/
theorem C9_ltf_allFalse (ltfInterval : Option String)
    (fetched : Option (List LtfCandle)) (revisitTs intervalMs : ℤ)
    (baseATR : ℚ) (type : Side)
    (hcase : ltfInterval = none ∨ fetched = none
      ∨ (ltfSubset intervalMs revisitTs (fetched.getD [])).length < 5) :
    computeLtfConfirmations ltfInterval fetched revisitTs intervalMs baseATR type
      = allFalseFlags := by
  unfold computeLtfConfirmations
  cases ltfInterval with
  | none => rfl
  | some iv =>
      cases fetched with
      | none => rfl
      | some cs =>
          rcases hcase with hcase | hcase | hcase
          · exact absurd hcase (by simp)
          · exact absurd hcase (by simp)
          · simp only [Option.getD_some] at hcase
            simp only [if_pos hcase]

/-- Witness for C9: a present mapping and a successful fetch whose window
subset has only 3 < 5 candles. -/
theorem C9_witness :
    (ltfSubset 900000 0 ((some [⟨0, 1, 2, 0, 1⟩, ⟨900000, 1, 2, 0, 1⟩,
        ⟨1800000, 1, 2, 0, 1⟩, ⟨9000000, 1, 2, 0, 1⟩] : Option (List LtfCandle)).getD [])).length < 5
    ∧ computeLtfConfirmations (some "15m")
        (some [⟨0, 1, 2, 0, 1⟩, ⟨900000, 1, 2, 0, 1⟩, ⟨1800000, 1, 2, 0, 1⟩, ⟨9000000, 1, 2, 0, 1⟩])
        0 900000 1 .bull = allFalseFlags :=
  ⟨by decide,
    C9_ltf_allFalse (some "15m")
      (some [⟨0, 1, 2, 0, 1⟩, ⟨900000, 1, 2, 0, 1⟩, ⟨1800000, 1, 2, 0, 1⟩, ⟨9000000, 1, 2, 0, 1⟩])
      0 900000 1 .bull (Or.inr (Or.inr (by decide)))⟩

/- ## C1 -/

/-- C1: for every hidden order block enriched by `get_market_snapshot`
(any inputs, hence any block the tool produces), `strengthLabel` is
`'very-strong'` iff the block is not invalidated AND its composite
quality score reaches `veryStrongMinQuality` AND its timeframe weight is
at least `1.3` AND at least 2 of the four LTF confirmation flags are set
AND at least 2 of {vwap confluence, volume-node confluence,
`liquidityProximity ≥ 0.5`, FVG proximity} hold; otherwise the label is
`'strong'` when the stored `qualityScore` reaches `minQuality`, and
`'normal'` otherwise.  (The very-strong test uses the un-rounded
composite score, recomputed here from the stored `components`; the
strong/normal test uses the stored 3-decimal `qualityScore`, exactly as
in the source.) -/
theorem C1_strengthLabel_classification
    (mq vs tfw : ℚ) (fvgs : List Fvg) (lz : LiqZones) (vwap : Option ℚ)
    (vol75 baseATR : ℚ) (ltf : LtfFlags) (candles : List Candle) (hob : HobCandidate) :
    ((enrichHob mq vs tfw fvgs lz vwap vol75 baseATR ltf candles hob).strengthLabel = "very-strong"
      ↔ ((enrichHob mq vs tfw fvgs lz vwap vol75 baseATR ltf candles hob).invalidated = false
        ∧ vs ≤ scoreOfComponents (enrichHob mq vs tfw fvgs lz vwap vol75 baseATR ltf candles hob).components
        ∧ (13/10 : ℚ) ≤ (enrichHob mq vs tfw fvgs lz vwap vol75 baseATR ltf candles hob).components.tfWeight
        ∧ 2 ≤ confCountOf (enrichHob mq vs tfw fvgs lz vwap vol75 baseATR ltf candles hob).ltfConfirmations
        ∧ 2 ≤ confluenceCountOf (enrichHob mq vs tfw fvgs lz vwap vol75 baseATR ltf candles hob).components))
    ∧ ((enrichHob mq vs tfw fvgs lz vwap vol75 baseATR ltf candles hob).strengthLabel ≠ "very-strong" →
      ((enrichHob mq vs tfw fvgs lz vwap vol75 baseATR ltf candles hob).strengthLabel = "strong"
        ↔ mq ≤ (enrichHob mq vs tfw fvgs lz vwap vol75 baseATR ltf candles hob).qualityScore))
    ∧ ((enrichHob mq vs tfw fvgs lz vwap vol75 baseATR ltf candles hob).strengthLabel ≠ "very-strong" →
      ((enrichHob mq vs tfw fvgs lz vwap vol75 baseATR ltf candles hob).strengthLabel = "normal"
        ↔ ¬ mq ≤ (enrichHob mq vs tfw fvgs lz vwap vol75 baseATR ltf candles hob).qualityScore)) := by
  refine ⟨?_, ?_, ?_⟩
  · dsimp only [enrichHob]
    rw [strengthLabelOf_very_iff]
    simp only [Bool.and_eq_true, Bool.not_eq_true', decide_eq_true_eq]
    tauto
  · intro hnv
    dsimp only [enrichHob] at *
    exact strengthLabelOf_strong_iff _ _ _ hnv
  · intro hnv
    dsimp only [enrichHob] at *
    exact strengthLabelOf_normal_iff _ _ _ hnv

/-- Witness for C1: the classification evaluated at a concrete
two-candle input. -/
theorem C1_witness :
    ((enrichHob (6/10) (3/4) 1 [] ⟨[], []⟩ none 0 1 allFalseFlags
        [⟨0, 2, 2, 1, 1, 1⟩, ⟨1, 3, 4, 3, 4, 1⟩]
        ⟨.bull, 0, 2, 1, 2, 1, 1, false, true, true⟩).strengthLabel = "very-strong"
      ↔ ((enrichHob (6/10) (3/4) 1 [] ⟨[], []⟩ none 0 1 allFalseFlags
        [⟨0, 2, 2, 1, 1, 1⟩, ⟨1, 3, 4, 3, 4, 1⟩]
        ⟨.bull, 0, 2, 1, 2, 1, 1, false, true, true⟩).invalidated = false
        ∧ (3/4 : ℚ) ≤ scoreOfComponents (enrichHob (6/10) (3/4) 1 [] ⟨[], []⟩ none 0 1 allFalseFlags
            [⟨0, 2, 2, 1, 1, 1⟩, ⟨1, 3, 4, 3, 4, 1⟩]
            ⟨.bull, 0, 2, 1, 2, 1, 1, false, true, true⟩).components
        ∧ (13/10 : ℚ) ≤ (enrichHob (6/10) (3/4) 1 [] ⟨[], []⟩ none 0 1 allFalseFlags
            [⟨0, 2, 2, 1, 1, 1⟩, ⟨1, 3, 4, 3, 4, 1⟩]
            ⟨.bull, 0, 2, 1, 2, 1, 1, false, true, true⟩).components.tfWeight
        ∧ 2 ≤ confCountOf (enrichHob (6/10) (3/4) 1 [] ⟨[], []⟩ none 0 1 allFalseFlags
            [⟨0, 2, 2, 1, 1, 1⟩, ⟨1, 3, 4, 3, 4, 1⟩]
            ⟨.bull, 0, 2, 1, 2, 1, 1, false, true, true⟩).ltfConfirmations
        ∧ 2 ≤ confluenceCountOf (enrichHob (6/10) (3/4) 1 [] ⟨[], []⟩ none 0 1 allFalseFlags
            [⟨0, 2, 2, 1, 1, 1⟩, ⟨1, 3, 4, 3, 4, 1⟩]
            ⟨.bull, 0, 2, 1, 2, 1, 1, false, true, true⟩).components))
    ∧ ((enrichHob (6/10) (3/4) 1 [] ⟨[], []⟩ none 0 1 allFalseFlags
        [⟨0, 2, 2, 1, 1, 1⟩, ⟨1, 3, 4, 3, 4, 1⟩]
        ⟨.bull, 0, 2, 1, 2, 1, 1, false, true, true⟩).strengthLabel ≠ "very-strong" →
      ((enrichHob (6/10) (3/4) 1 [] ⟨[], []⟩ none 0 1 allFalseFlags
        [⟨0, 2, 2, 1, 1, 1⟩, ⟨1, 3, 4, 3, 4, 1⟩]
        ⟨.bull, 0, 2, 1, 2, 1, 1, false, true, true⟩).strengthLabel = "strong"
        ↔ (6/10 : ℚ) ≤ (enrichHob (6/10) (3/4) 1 [] ⟨[], []⟩ none 0 1 allFalseFlags
            [⟨0, 2, 2, 1, 1, 1⟩, ⟨1, 3, 4, 3, 4, 1⟩]
            ⟨.bull, 0, 2, 1, 2, 1, 1, false, true, true⟩).qualityScore))
    ∧ ((enrichHob (6/10) (3/4) 1 [] ⟨[], []⟩ none 0 1 allFalseFlags
        [⟨0, 2, 2, 1, 1, 1⟩, ⟨1, 3, 4, 3, 4, 1⟩]
        ⟨.bull, 0, 2, 1, 2, 1, 1, false, true, true⟩).strengthLabel ≠ "very-strong" →
      ((enrichHob (6/10) (3/4) 1 [] ⟨[], []⟩ none 0 1 allFalseFlags
        [⟨0, 2, 2, 1, 1, 1⟩, ⟨1, 3, 4, 3, 4, 1⟩]
        ⟨.bull, 0, 2, 1, 2, 1, 1, false, true, true⟩).strengthLabel = "normal"
        ↔ ¬ (6/10 : ℚ) ≤ (enrichHob (6/10) (3/4) 1 [] ⟨[], []⟩ none 0 1 allFalseFlags
            [⟨0, 2, 2, 1, 1, 1⟩, ⟨1, 3, 4, 3, 4, 1⟩]
            ⟨.bull, 0, 2, 1, 2, 1, 1, false, true, true⟩).qualityScore)) :=
  C1_strengthLabel_classification (6/10) (3/4) 1 [] ⟨[], []⟩ none 0 1 allFalseFlags
    [⟨0, 2, 2, 1, 1, 1⟩, ⟨1, 3, 4, 3, 4, 1⟩]
    ⟨.bull, 0, 2, 1, 2, 1, 1, false, true, true⟩

/- ## C8 -/

/-- A block passing `filterHob` meets the quality threshold (the
`qualityOk` conjunct). -/
theorem filterHob_quality {q : SnapshotParams} {hob : EnrichedHob}
    (hf : filterHob q hob = true) : q.minQuality ≤ hob.qualityScore := by
  simp only [filterHob, Bool.and_eq_true, decide_eq_true_eq] at hf
  tauto

/-- C8: for every fixed enriched hidden-order-block list and any fixed
values of the other filter parameters, the `filterHob` result with
`onlyVeryStrong = true` is a subset of the result of the `minQuality`
threshold alone (all other toggles off), which is a subset of the
unfiltered list; and the threshold-alone filter is literally the filter
by `minQuality ≤ qualityScore`.  Each condition is conjoined, so an
additional filter only removes elements. -/
theorem C8_filter_subset_chain (l : List EnrichedHob) (p : SnapshotParams) :
    (l.filter (filterHob (withOnlyVeryStrong p))
      ⊆ l.filter (filterHob (thresholdOnly p)))
    ∧ (l.filter (filterHob (thresholdOnly p)) ⊆ l)
    ∧ l.filter (filterHob (thresholdOnly p))
      = l.filter (fun hob => decide (p.minQuality ≤ hob.qualityScore)) := by
  have hq : ∀ hob : EnrichedHob,
      filterHob (thresholdOnly p) hob = decide (p.minQuality ≤ hob.qualityScore) := by
    intro hob
    simp [filterHob, thresholdOnly]
  refine ⟨?_, ?_, ?_⟩
  · intro a ha
    rw [List.mem_filter] at ha ⊢
    refine ⟨ha.1, ?_⟩
    rw [hq]
    have h3 : (withOnlyVeryStrong p).minQuality ≤ a.qualityScore := filterHob_quality ha.2
    simp only [withOnlyVeryStrong] at h3
    exact decide_eq_true h3
  · intro a ha
    exact (List.mem_filter.mp ha).1
  · exact List.filter_congr (fun hob _ => hq hob)

/-- Witness for C8 at a concrete one-element list and the default
parameters. -/
theorem C8_witness :
    (([⟨.bull, 0, 2, 1, 2, 1, 1, false, true, true, false, false, allFalseFlags,
        1, ⟨1, 1, false, 1, false, false, 1⟩, false, "strong"⟩] : List EnrichedHob).filter
        (filterHob (withOnlyVeryStrong defaultParams))
      ⊆ ([⟨.bull, 0, 2, 1, 2, 1, 1, false, true, true, false, false, allFalseFlags,
        1, ⟨1, 1, false, 1, false, false, 1⟩, false, "strong"⟩] : List EnrichedHob).filter
        (filterHob (thresholdOnly defaultParams)))
    ∧ (([⟨.bull, 0, 2, 1, 2, 1, 1, false, true, true, false, false, allFalseFlags,
        1, ⟨1, 1, false, 1, false, false, 1⟩, false, "strong"⟩] : List EnrichedHob).filter
        (filterHob (thresholdOnly defaultParams))
      ⊆ [⟨.bull, 0, 2, 1, 2, 1, 1, false, true, true, false, false, allFalseFlags,
        1, ⟨1, 1, false, 1, false, false, 1⟩, false, "strong"⟩])
    ∧ ([⟨.bull, 0, 2, 1, 2, 1, 1, false, true, true, false, false, allFalseFlags,
        1, ⟨1, 1, false, 1, false, false, 1⟩, false, "strong"⟩] : List EnrichedHob).filter
        (filterHob (thresholdOnly defaultParams))
      = ([⟨.bull, 0, 2, 1, 2, 1, 1, false, true, true, false, false, allFalseFlags,
        1, ⟨1, 1, false, 1, false, false, 1⟩, false, "strong"⟩] : List EnrichedHob).filter
        (fun hob => decide (defaultParams.minQuality ≤ hob.qualityScore)) :=
  C8_filter_subset_chain
    [⟨.bull, 0, 2, 1, 2, 1, 1, false, true, true, false, false, allFalseFlags,
      1, ⟨1, 1, false, 1, false, false, 1⟩, false, "strong"⟩] defaultParams

/- ## C2 -/

/-- Every hidden-order-block candidate built by the batch handler has no
`qualityScore` (the batch construction never assigns one). -/
theorem batchHobCandidates_qualityScore_none
    (highs lows closes : List ℚ) (obs : List OrderBlock) :
    ∀ x ∈ batchHobCandidatesOf highs lows closes obs, x.qualityScore = none := by
  intro x hx
  simp only [batchHobCandidatesOf, List.mem_flatMap] at hx
  obtain ⟨ob, -, hx⟩ := hx
  split at hx
  · simp at hx
  · split at hx <;> split at hx <;> simp_all

/-- C2: for every successful per-symbol result of the batch tool
`get_market_snapshots` — any candles, any configuration — the returned
`hiddenOrderBlocks` array is empty: the batch handler builds candidate
blocks without ever assigning a numeric `qualityScore`, and its filter
only admits blocks whose `qualityScore` is a number at least
`minQuality`, so no candidate passes. -/
theorem C2_batch_hiddenOrderBlocks_empty (p : SnapshotParams) (candles : List Candle) :
    (batchSnapshotCore p candles).hiddenOrderBlocks = [] := by
  dsimp only [batchSnapshotCore]
  rw [List.filter_eq_nil_iff]
  intro a ha
  have hqs := batchHobCandidates_qualityScore_none _ _ _ _ a ha
  simp [batchFilterHob, hqs]

/- ## C10 -/

/-- C10: for a batch over 3 symbols where the fetch for the second
returns zero candles and the first and third return non-empty candle
arrays, `get_market_snapshots` yields an array of length 3 in input
order whose second slot is the `{symbol, error: 'no_candles'}` stub
(returned, not thrown) and whose first and third slots are the computed
snapshots; a per-symbol failure never aborts the rest of the batch. -/
theorem C10_batch_isolation
    (fetch : String → Except String (List Candle)) (p : SnapshotParams)
    (s1 s2 s3 : String) (cs1 cs3 : List Candle)
    (h1 : fetch s1 = .ok cs1) (h1ne : cs1 ≠ [])
    (h2 : fetch s2 = .ok [])
    (h3 : fetch s3 = .ok cs3) (h3ne : cs3 ≠ []) :
    get_market_snapshots fetch p [s1, s2, s3]
      = [.snap s1 (batchSnapshotCore p cs1),
         .err s2 "no_candles",
         .snap s3 (batchSnapshotCore p cs3)]
    ∧ (get_market_snapshots fetch p [s1, s2, s3]).length = 3 := by
  have he1 : cs1.isEmpty = false := by
    cases cs1 with
    | nil => exact absurd rfl h1ne
    | cons a as => rfl
  have he3 : cs3.isEmpty = false := by
    cases cs3 with
    | nil => exact absurd rfl h3ne
    | cons a as => rfl
  constructor
  · simp only [get_market_snapshots, List.map, processSymbol, h1, h2, h3, he1, he3]
    rfl
  · simp [get_market_snapshots]

/-- Witness for C10: a concrete fetch returning one candle for `"AAA"`
and `"CCC"` and zero candles for `"BBB"`. -/
theorem C10_witness :
    get_market_snapshots
        (fun s => if s = "BBB" then Except.ok []
          else Except.ok [⟨0, 100, 101, 99, 100, 1⟩])
        defaultParams ["AAA", "BBB", "CCC"]
      = [.snap "AAA" (batchSnapshotCore defaultParams [⟨0, 100, 101, 99, 100, 1⟩]),
         .err "BBB" "no_candles",
         .snap "CCC" (batchSnapshotCore defaultParams [⟨0, 100, 101, 99, 100, 1⟩])]
    ∧ (get_market_snapshots
        (fun s => if s = "BBB" then Except.ok []
          else Except.ok [⟨0, 100, 101, 99, 100, 1⟩])
        defaultParams ["AAA", "BBB", "CCC"]).length = 3 :=
  C10_batch_isolation
    (fun s => if s = "BBB" then Except.ok []
      else Except.ok [⟨0, 100, 101, 99, 100, 1⟩])
    defaultParams "AAA" "BBB" "CCC"
    [⟨0, 100, 101, 99, 100, 1⟩] [⟨0, 100, 101, 99, 100, 1⟩]
    (by simp) (by simp) (by simp) (by simp) (by simp)

/- ## Replicate lemmas for the flat-series scenario -/

/-- `drop` on a constant list. -/
theorem drop_replicate_q {α : Type _} (i n : ℕ) (x : α) :
    (List.replicate n x).drop i = List.replicate (n - i) x := by
  induction n generalizing i with
  | zero => simp
  | succ m ih =>
      cases i with
      | zero => simp
      | succ j => rw [List.replicate_succ, List.drop_succ_cons, ih, Nat.succ_sub_succ]

/-- `take` on a constant list. -/
theorem take_replicate_q {α : Type _} (i n : ℕ) (x : α) :
    (List.replicate n x).take i = List.replicate (min i n) x := by
  induction n generalizing i with
  | zero => simp
  | succ m ih =>
      cases i with
      | zero => simp
      | succ j => rw [List.replicate_succ, List.take_succ_cons, ih, Nat.succ_min_succ,
          List.replicate_succ]

/-- `dropLast` on a constant list. -/
theorem dropLast_replicate_q {α : Type _} (n : ℕ) (x : α) :
    (List.replicate n x).dropLast = List.replicate (n - 1) x := by
  cases n with
  | zero => rfl
  | succ m => rw [List.replicate_succ', List.dropLast_concat, Nat.succ_sub_one]

/-- `zipWith` of two constant lists. -/
theorem zipWith_replicate_q {α β γ : Type _} (f : α → β → γ) (a : α) (b : β)
    (m k : ℕ) :
    List.zipWith f (List.replicate m a) (List.replicate k b)
      = List.replicate (min m k) (f a b) := by
  induction m generalizing k with
  | zero => simp
  | succ p ih =>
      cases k with
      | zero => simp
      | succ q => rw [List.replicate_succ, List.replicate_succ, List.zipWith_cons_cons,
          ih, Nat.succ_min_succ, List.replicate_succ]

/-- `getD` read of a constant list inside its range. -/
theorem getq_replicate (n i : ℕ) (x : ℚ) (hi : i < n) :
    getq (List.replicate n x) i = x := by
  induction n generalizing i with
  | zero => omega
  | succ m ih =>
      cases i with
      | zero => rfl
      | succ j =>
          rw [List.replicate_succ]
          exact ih j (by omega)

/-- Folding `max` over a constant list from the same constant. -/
theorem foldl_max_replicate (k : ℕ) (x : ℚ) :
    (List.replicate k x).foldl max x = x := by
  induction k with
  | zero => rfl
  | succ m ih => rw [List.replicate_succ, List.foldl_cons, max_self]; exact ih

/-- Folding `min` over a constant list from the same constant. -/
theorem foldl_min_replicate (k : ℕ) (x : ℚ) :
    (List.replicate k x).foldl min x = x := by
  induction k with
  | zero => rfl
  | succ m ih => rw [List.replicate_succ, List.foldl_cons, min_self]; exact ih

/-- Wilder's update is a fixed point at the constant it starts from. -/
theorem foldl_wilder_replicate (c x : ℚ) (m : ℕ) :
    (List.replicate m x).foldl (fun val a => c * a + (1 - c) * val) x = x := by
  induction m with
  | zero => rfl
  | succ p ih =>
      rw [List.replicate_succ, List.foldl_cons]
      have hstep : c * x + (1 - c) * x = x := by ring
      rw [hstep]; exact ih

/-- `rma` of a constant series is that constant. -/
theorem rma_replicate (k n : ℕ) (x : ℚ) (hn : 0 < n) (hk : n ≤ k) :
    rma (List.replicate k x) n = some x := by
  unfold rma
  rw [List.length_replicate, if_neg (by omega)]
  have htake : (List.replicate k x).take n = List.replicate n x := by
    rw [take_replicate_q, min_eq_left hk]
  have hsum : ((List.replicate n x).sum : ℚ) = (n : ℚ) * x := by
    rw [List.sum_replicate, nsmul_eq_mul]
  have hn' : ((n : ℚ)) ≠ 0 := by positivity
  rw [drop_replicate_q, htake, hsum, mul_div_cancel_left₀ x hn']
  rw [foldl_wilder_replicate]

/-- The true-range series of a constant candle list is the constant
`high - low`. -/
theorem trOf_replicate (n : ℕ) (t : ℤ) (o hh ll cc v : ℚ)
    (hlc : ll ≤ cc) (hch : cc ≤ hh) :
    trOf (List.replicate n ⟨t, o, hh, ll, cc, v⟩) = List.replicate n (hh - ll) := by
  cases n with
  | zero => rfl
  | succ m =>
      rw [List.replicate_succ]
      simp only [trOf]
      rw [← List.replicate_succ, zipWith_replicate_q]
      dsimp only
      have habs1 : |hh - cc| = hh - cc := abs_of_nonneg (by linarith)
      have habs2 : |ll - cc| = cc - ll := by
        rw [abs_sub_comm]; exact abs_of_nonneg (by linarith)
      have hmax : max (hh - ll) (max |hh - cc| |ll - cc|) = hh - ll := by
        rw [habs1, habs2]
        exact max_eq_left (max_le (by linarith) (by linarith))
      rw [hmax, min_eq_right (Nat.le_succ m), List.replicate_succ]

/-- On a constant series the last close never breaks the prior highs or
lows, so `bos` is `null`. -/
theorem bosOf_replicate (n : ℕ) (hn : 2 ≤ n) (cc hh ll : ℚ)
    (hlc : ll ≤ cc) (hch : cc ≤ hh) :
    bosOf (List.replicate n cc) (List.replicate n hh) (List.replicate n ll) = none := by
  have hmax : maxQ (List.replicate (n - 1) hh) = some hh := by
    obtain ⟨m, hm⟩ : ∃ m, n - 1 = m + 1 := ⟨n - 2, by omega⟩
    rw [hm, List.replicate_succ]
    simp only [maxQ]
    rw [foldl_max_replicate]
  have hmin : minQ (List.replicate (n - 1) ll) = some ll := by
    obtain ⟨m, hm⟩ : ∃ m, n - 1 = m + 1 := ⟨n - 2, by omega⟩
    rw [hm, List.replicate_succ]
    simp only [minQ]
    rw [foldl_min_replicate]
  unfold bosOf
  rw [List.length_replicate, getq_replicate n (n - 1) cc (by omega),
    dropLast_replicate_q, dropLast_replicate_q, hmax, hmin]
  simp only [gtMax, ltMin]
  simp only [decide_eq_false (not_lt.mpr hch), decide_eq_false (not_lt.mpr hlc)]
  rfl

/-- A `null` (or zero) SMA200 makes the trend `null` whatever SMA50 is. -/
theorem trendOf_none_right (s : Option ℚ) : trendOf s none = none := by
  cases s <;> rfl

/-- The delta series of a constant close series is constantly zero. -/
theorem deltasOf_replicate (n : ℕ) (x : ℚ) :
    deltasOf (List.replicate n x) = List.replicate (n - 1) 0 := by
  unfold deltasOf
  rw [drop_replicate_q, zipWith_replicate_q, min_eq_left (by omega), sub_self]

/-- `avgGain` of a constant close series of length ≥ 15 is zero. -/
theorem avgGainOf_replicate (n : ℕ) (hn : 15 ≤ n) (x : ℚ) :
    avgGainOf (List.replicate n x) = some 0 := by
  unfold avgGainOf
  rw [deltasOf_replicate, List.map_replicate]
  have h0 : (if (0:ℚ) < 0 then (0:ℚ) else 0) = 0 := by norm_num
  rw [h0]
  exact rma_replicate (n - 1) 14 0 (by norm_num) (by omega)

/-- `avgLoss` of a constant close series of length ≥ 15 is zero. -/
theorem avgLossOf_replicate (n : ℕ) (hn : 15 ≤ n) (x : ℚ) :
    avgLossOf (List.replicate n x) = some 0 := by
  unfold avgLossOf
  rw [deltasOf_replicate, List.map_replicate]
  have h0 : (if (0:ℚ) < 0 then -(0:ℚ) else 0) = 0 := by norm_num
  rw [h0]
  exact rma_replicate (n - 1) 14 0 (by norm_num) (by omega)

/-- RSI of a constant close series of length ≥ 15 is `100` — the source
tests `avgLoss === 0` before `avgGain === 0`, so a series with no gains
and no losses lands in the `100` branch. -/
theorem rsiOf_replicate (n : ℕ) (hn : 15 ≤ n) (x : ℚ) :
    rsiOf (List.replicate n x) = some 100 := by
  unfold rsiOf
  rw [avgGainOf_replicate n hn x, avgLossOf_replicate n hn x]
  norm_num

/- ## C3 -/

set_option maxRecDepth 8000 in
/-- C3 counterexample.  (a) 15 perfectly flat candles (a flat/ranging
series par excellence, all highs/lows within 0.1% of each other): the
average gain is `0`, yet the snapshot's RSI is `100` — not `0` as the
claim's rule `RSI = 0 when avgGain is 0` demands, and not `≈ 50`.
(b) A 15-candle series with every high and low inside a 0.07% band whose
last candle closes above all prior highs: `bos = 'up'`, not `null`. -/
theorem C3_counterexample :
    avgGainOf (List.replicate 15 (100 : ℚ)) = some 0
    ∧ (snapshotCore defaultParams none (List.replicate 15 ⟨0, 100, 101, 99, 100, 1⟩)).rsi
        = some 100
    ∧ (snapshotCore defaultParams none (List.replicate 15 ⟨0, 100, 101, 99, 100, 1⟩)).rsi
        ≠ some 0
    ∧ (snapshotCore defaultParams none (List.replicate 15 ⟨0, 100, 101, 99, 100, 1⟩)).rsi
        ≠ some 50
    ∧ bosOf
        [100030, 100030, 100030, 100030, 100030, 100030, 100030, 100030,
          100030, 100030, 100030, 100030, 100030, 100030, 100080]
        [100040, 100040, 100040, 100040, 100040, 100040, 100040, 100040,
          100040, 100040, 100040, 100040, 100040, 100040, 100090]
        [100020, 100020, 100020, 100020, 100020, 100020, 100020, 100020,
          100020, 100020, 100020, 100020, 100020, 100020, 100025]
      = some Dir.up := by
  have hrsi : (snapshotCore defaultParams none
      (List.replicate 15 ⟨0, 100, 101, 99, 100, 1⟩)).rsi = some 100 := by
    dsimp only [snapshotCore, defaultParams]
    rw [List.map_replicate]
    dsimp only
    exact rsiOf_replicate 15 (by norm_num) 100
  refine ⟨avgGainOf_replicate 15 (by norm_num) 100, hrsi, ?_, ?_, ?_⟩
  · rw [hrsi]
    simp only [ne_eq, Option.some.injEq]
    norm_num
  · rw [hrsi]
    simp only [ne_eq, Option.some.injEq]
    norm_num
  · decide

/-- C3 amended: for a *perfectly flat* candle series (`n` identical
candles, `15 ≤ n < 200`, `low < high`, `low ≤ close ≤ high`) the
snapshot has `bos = null`, `trend = null`, ATR equal to the (small
positive) candle range `high - low` — and `RSI = 100`, not `≈ 50`:
because the source tests `avgLoss === 0` first, RSI is `100` whenever
`avgLoss = 0`, even when `avgGain = 0` as well; `RSI = 0` only when
`avgGain = 0` and `avgLoss ≠ 0`. -/
theorem C3_flat_series_amended (n : ℕ) (t : ℤ) (o hh ll cc v : ℚ)
    (ltf : Option (List LtfCandle))
    (h15 : 15 ≤ n) (h200 : n < 200) (hlh : ll < hh) (hlc : ll ≤ cc) (hch : cc ≤ hh) :
    (snapshotCore defaultParams ltf (List.replicate n ⟨t, o, hh, ll, cc, v⟩)).bos = none
    ∧ (snapshotCore defaultParams ltf (List.replicate n ⟨t, o, hh, ll, cc, v⟩)).trend = none
    ∧ (snapshotCore defaultParams ltf (List.replicate n ⟨t, o, hh, ll, cc, v⟩)).atr
        = some (hh - ll)
    ∧ 0 < hh - ll
    ∧ avgGainOf (List.replicate n cc) = some 0
    ∧ (snapshotCore defaultParams ltf (List.replicate n ⟨t, o, hh, ll, cc, v⟩)).rsi
        = some 100 := by
  dsimp only [snapshotCore, defaultParams]
  refine ⟨?_, ?_, ?_, by linarith, avgGainOf_replicate n (by omega) cc, ?_⟩
  · rw [List.map_replicate, List.map_replicate, List.map_replicate]
    dsimp only
    exact bosOf_replicate n (by omega) cc hh ll hlc hch
  · rw [List.map_replicate]
    dsimp only
    have hs200 : sma (List.replicate n cc) 200 = none := by
      unfold sma
      rw [List.length_replicate, if_pos (by omega)]
    rw [hs200]
    exact trendOf_none_right _
  · simp only [atrOf]
    rw [trOf_replicate n t o hh ll cc v hlc hch]
    exact rma_replicate n 14 (hh - ll) (by norm_num) (by omega)
  · rw [List.map_replicate]
    dsimp only
    exact rsiOf_replicate n (by omega) cc

/-- Witness for C3 amended at 15 flat candles `o=100, h=101, l=99, c=100`. -/
theorem C3_witness :
    (snapshotCore defaultParams none (List.replicate 15 ⟨0, 100, 101, 99, 100, 1⟩)).bos = none
    ∧ (snapshotCore defaultParams none (List.replicate 15 ⟨0, 100, 101, 99, 100, 1⟩)).trend = none
    ∧ (snapshotCore defaultParams none (List.replicate 15 ⟨0, 100, 101, 99, 100, 1⟩)).atr
        = some (101 - 99)
    ∧ (0 : ℚ) < 101 - 99
    ∧ avgGainOf (List.replicate 15 (100 : ℚ)) = some 0
    ∧ (snapshotCore defaultParams none (List.replicate 15 ⟨0, 100, 101, 99, 100, 1⟩)).rsi
        = some 100 :=
  C3_flat_series_amended 15 0 100 101 99 100 1 none
    (by norm_num) (by norm_num) (by norm_num) (by norm_num) (by norm_num)

/- ## C6 -/

/-- The true-range series has one entry per candle. -/
theorem trOf_length (candles : List Candle) : (trOf candles).length = candles.length := by
  cases candles with
  | nil => rfl
  | cons c0 rest =>
      simp only [trOf, List.length_cons, List.length_zipWith]
      omega

/-- The delta series has one entry less than the close series. -/
theorem deltasOf_length (l : List ℚ) : (deltasOf l).length = l.length - 1 := by
  unfold deltasOf
  rw [List.length_zipWith, List.length_drop]
  omega

/-- C6 counterexample: on a single-candle array `get_market_snapshot`'s
`bos` is `'up'`, not `null`: `prevHigh = Math.max()` over the empty
prior-window slice is `-Infinity`, so `lastClose > prevHigh` holds
vacuously and a non-null direction is fabricated. -/
theorem C6_counterexample :
    (snapshotCore defaultParams none [⟨0, 100, 101, 99, 100, 1⟩]).bos = some Dir.up
    ∧ some Dir.up ≠ (none : Option Dir) :=
  ⟨rfl, by decide⟩

/-- C6 amended: for every non-empty candle array shorter than the history
an indicator requires, that indicator is `null` and the derived sets are
empty (`sma50`/`sma200`/`trend`/ATR/RSI `null`; pivots and FVGs empty
below 3 candles) and the snapshot is still produced — with the one
exception that on a single-candle array `bos` is fabricated as `'up'`
(never `null`), because the previous-window maximum of an empty slice is
`-Infinity`. -/
theorem C6_short_array_amended (candles : List Candle) (ltf : Option (List LtfCandle))
    (hne : candles ≠ []) :
    (candles.length < 50 → (snapshotCore defaultParams ltf candles).sma50 = none)
    ∧ (candles.length < 200 → (snapshotCore defaultParams ltf candles).sma200 = none)
    ∧ (candles.length < 200 → (snapshotCore defaultParams ltf candles).trend = none)
    ∧ (candles.length < 14 → (snapshotCore defaultParams ltf candles).atr = none)
    ∧ (candles.length < 15 → (snapshotCore defaultParams ltf candles).rsi = none)
    ∧ (candles.length < 3 → (snapshotCore defaultParams ltf candles).pivots = []
        ∧ (snapshotCore defaultParams ltf candles).fvg = [])
    ∧ (candles.length = 1 → (snapshotCore defaultParams ltf candles).bos = some Dir.up) := by
  dsimp only [snapshotCore, defaultParams]
  refine ⟨?_, ?_, ?_, ?_, ?_, ?_, ?_⟩
  · intro hlen
    unfold sma
    rw [List.length_map, if_pos hlen]
  · intro hlen
    unfold sma
    rw [List.length_map, if_pos hlen]
  · intro hlen
    have hs200 : sma (candles.map (·.c)) 200 = none := by
      unfold sma
      rw [List.length_map, if_pos hlen]
    rw [hs200]
    exact trendOf_none_right _
  · intro hlen
    unfold atrOf rma
    rw [trOf_length, if_pos hlen]
  · intro hlen
    have hg : avgGainOf (candles.map (·.c)) = none := by
      unfold avgGainOf rma
      rw [List.length_map, deltasOf_length, List.length_map, if_pos (by omega)]
    unfold rsiOf
    rw [hg]
  · intro hlen
    constructor
    · unfold pivotsOf
      rw [List.length_map, show candles.length - 2 = 0 from by omega]
      rfl
    · simp only [fvgOf, List.length_map]
      rw [show candles.length - (60 + 2) = 0 from by omega]
      rw [show max 2 0 = 2 from rfl, show candles.length - 2 = 0 from by omega]
      rfl
  · intro hlen
    obtain ⟨cd, hcd⟩ : ∃ cd, candles = [cd] := by
      cases candles with
      | nil => simp at hlen
      | cons c0 rest =>
          cases rest with
          | nil => exact ⟨c0, rfl⟩
          | cons _ _ => simp at hlen
    subst hcd
    rfl

/-- Witness for C6 amended at a single-candle array. -/
theorem C6_witness :
    (([(⟨0, 100, 101, 99, 100, 1⟩ : Candle)] : List Candle).length < 50
      → (snapshotCore defaultParams none [⟨0, 100, 101, 99, 100, 1⟩]).sma50 = none)
    ∧ (([(⟨0, 100, 101, 99, 100, 1⟩ : Candle)] : List Candle).length < 200
      → (snapshotCore defaultParams none [⟨0, 100, 101, 99, 100, 1⟩]).sma200 = none)
    ∧ (([(⟨0, 100, 101, 99, 100, 1⟩ : Candle)] : List Candle).length < 200
      → (snapshotCore defaultParams none [⟨0, 100, 101, 99, 100, 1⟩]).trend = none)
    ∧ (([(⟨0, 100, 101, 99, 100, 1⟩ : Candle)] : List Candle).length < 14
      → (snapshotCore defaultParams none [⟨0, 100, 101, 99, 100, 1⟩]).atr = none)
    ∧ (([(⟨0, 100, 101, 99, 100, 1⟩ : Candle)] : List Candle).length < 15
      → (snapshotCore defaultParams none [⟨0, 100, 101, 99, 100, 1⟩]).rsi = none)
    ∧ (([(⟨0, 100, 101, 99, 100, 1⟩ : Candle)] : List Candle).length < 3
      → (snapshotCore defaultParams none [⟨0, 100, 101, 99, 100, 1⟩]).pivots = []
        ∧ (snapshotCore defaultParams none [⟨0, 100, 101, 99, 100, 1⟩]).fvg = [])
    ∧ (([(⟨0, 100, 101, 99, 100, 1⟩ : Candle)] : List Candle).length = 1
      → (snapshotCore defaultParams none [⟨0, 100, 101, 99, 100, 1⟩]).bos = some Dir.up) :=
  C6_short_array_amended [⟨0, 100, 101, 99, 100, 1⟩] none (by simp)
